import Mathlib

/-!
Verification development for the post-build validation script of the
opentelemetry-browser distribution (scripts file, referred to below by its
function names and line numbers).

The script is a sequential orchestrator over filesystem reads and opaque
external subprocesses (es-check, eslint, publint, grep, npm pack / npm
install, and a node module-load).  The embedding models the filesystem
contents and the outcomes of those subprocesses as an explicit environment
(`Env`), and each script function as a pure Lean function over that
environment.  Side effects that the specification constrains (sandbox
creation and removal, packing, staging, installing, module loading) are
recorded as an explicit event trace.
-/

namespace BuildValidate

/-- Fields of a package manifest (package.json) that the script consumes:
the declared `name`, the key lists of the `dependencies` and
`peerDependencies` mappings (only keys are ever read, via
`Object.keys(allDeps).includes`), and the `private` flag.
Source: `getPackageJson` (lines 52-55) together with the fields read in
`getWorkspaceDependencies` (lines 152-168) and `testPackageImports`
(lines 170-245). -/
structure Manifest where
  name : String
  dependencies : List String
  peerDependencies : List String
  privateFlag : Bool
deriving Repr, DecidableEq

/-- State of the companion sourcemap file of one compiled output file:
absent on disk, present but failing `JSON.parse`, or parsed with its list of
original-source references (`map.sources`; a parsed map without a `sources`
key behaves as the empty list, since `map.sources?.length` is then falsy).
Source: `validateSourcemaps`, lines 122-139. -/
inductive MapFileState where
  | missing : MapFileState
  | unparsable : MapFileState
  | ok : List String → MapFileState
deriving Repr, DecidableEq

/-- One compiled `.js` file of a package dist directory, at the granularity
`validateSourcemaps` consumes it: its companion map file state, and whether
the compiled file text contains the substring `sourceMappingURL=`
(line 143: `jsContent.includes('sourceMappingURL=')`). -/
structure JsFile where
  fileName : String
  mapState : MapFileState
  hasMapRef : Bool
deriving Repr, DecidableEq

/-- A directory entry of the packages root: its directory name, whether a
`dist/` subdirectory exists (line 47-48), its parsed manifest, and the `.js`
files of its dist directory (line 120:
`readdirSync(distPath).filter(f => f.endsWith('.js'))`, listed here already
filtered and in directory-listing order). -/
structure Package where
  dir : String
  hasDist : Bool
  manifest : Manifest
  distJsFiles : List JsFile
deriving Repr, DecidableEq

/-- The environment of one validator run: the packages-directory listing
plus the outcomes of the opaque external collaborators, each keyed by the
package directory (or, for the module load, the declared package name) it
is invoked for.  The script treats every external tool as a black-box
pass/fail subprocess, so each enters the model as an oracle:
`esCheckOk` (es-check exit 0, line 74-80), `eslintOk` (the eslint baseline
run, line 100-106), `publintOk` (`npx publint` exit 0, line 276),
`grepFindsRequire` (grep exit 0, i.e. a `require(` occurrence was found,
lines 335-344), `packOk` (`npm pack` exit 0, lines 186 and 202),
`tarballFound` (a file starting with the transformed declared name and
ending in `.tgz` exists in the directory listing after packing, lines
189-191 and 204-206), `installDepOk` / `installTargetOk` (`npm install`
exit 0 given that the archive file to install is present, lines 226 and
230; installing a dependency whose archive was never found — and hence
never staged into the sandbox — necessarily fails, which `installDeps`
accounts for), and `importLoad` (the ESM import of the package
by name: `none` when the import statement throws, `some exports` when it
yields the module namespace with the given exported binding names,
lines 233-236). -/
structure Env where
  packages : List Package
  esCheckOk : String → Bool
  eslintOk : Bool
  publintOk : String → Bool
  grepFindsRequire : String → Bool
  packOk : String → Bool
  tarballFound : String → Bool
  installDepOk : String → Bool
  installTargetOk : String → Bool
  importLoad : String → Option (List String)

/-- Lines 44-50: `getPackagesWithDist` filters the packages-directory
listing to the entries whose `dist` subdirectory exists. -/
def getPackagesWithDist (env : Env) : List Package :=
  env.packages.filter (fun p => p.hasDist)

/-- Lines 153-156: the key list of `allDeps = {...dependencies,
...peerDependencies}`.  Only membership in the key set is ever consulted
(`Object.keys(allDeps).includes`), and the key set of a two-object spread
is the union of the two key sets, so the key list is modelled as the
concatenation of the two key lists. -/
def allDepNames (m : Manifest) : List String :=
  m.dependencies ++ m.peerDependencies

/-- Lines 152-168: `getWorkspaceDependencies` returns the packages with
dist whose declared manifest name is both among the discovered workspace
names (trivially true for members of the discovered list) and among the
keys of the merged dependency mapping of the given manifest. -/
def getWorkspaceDependencies (env : Env) (m : Manifest) : List Package :=
  let workspacePackages := getPackagesWithDist env
  let workspaceNames := workspacePackages.map (fun p => p.manifest.name)
  workspacePackages.filter (fun p =>
    workspaceNames.contains p.manifest.name
      && (allDepNames m).contains p.manifest.name)

/-- Lines 122-147: the per-file loop of `validateSourcemaps`.  A file whose
companion map is absent is skipped entirely by `continue` (line 127) —
including the `sourceMappingURL=` check further down the loop body.  A map
that fails to parse (line 137) or has an empty `sources` list (line 132)
returns `false` immediately, as does a present-map file whose compiled text
lacks the sourcemap reference (line 143). -/
def validateFiles : List JsFile → Bool
  | [] => true
  | f :: rest =>
    match f.mapState with
    | MapFileState.missing => validateFiles rest
    | MapFileState.unparsable => false
    | MapFileState.ok sources =>
      if sources.isEmpty then false
      else if !f.hasMapRef then false
      else validateFiles rest

/-- Lines 118-150: `validateSourcemaps` for one package runs the per-file
loop over the `.js` files of its dist directory. -/
def validateSourcemaps (pkg : Package) : Bool :=
  validateFiles pkg.distJsFiles

/-- Lines 58-94: `checkSyntaxCompliance` returns `true` with a warning when
no packages with dist exist (lines 63-66); otherwise it runs es-check per
package, collects failures, and returns `true` iff no package failed. -/
def checkSyntaxCompliance (env : Env) : Bool :=
  let packages := getPackagesWithDist env
  if packages.isEmpty then true
  else packages.all (fun p => env.esCheckOk p.dir)

/-- Lines 97-116: `checkBaselineAPIs` runs the eslint baseline check once,
returning `false` exactly on a non-zero exit. -/
def checkBaselineAPIs (env : Env) : Bool :=
  env.eslintOk

/-- Lines 233-236: exit status of the node verification script
`import * as pkg from 'name'; if (!pkg) process.exit(1);`.
If the import statement throws (module not resolvable, or evaluation
failure), node exits non-zero.  If the import succeeds, `pkg` is a module
namespace object; in JS an object is always truthy, whatever its set of
exported bindings, so the `if (!pkg)` branch can never fire and the exit
status is 0 — regardless of whether the namespace has any exports. -/
def moduleLoadExit : Option (List String) → Nat
  | none => 1
  | some _ => 0

/-- Side effects of `testPackageImports` that the specification constrains,
recorded in program order: sandbox creation (`mkdtempSync`, line 179),
`npm pack` invocations (lines 186 and 202), staging a found dependency
tarball into the sandbox (`renameSync`, lines 193-196), dependency installs
(line 226), the target install (line 230), the module-load verification
(lines 233-236), and sandbox removal (`rmSync`, line 243). -/
inductive Event where
  | mkTemp : Event
  | pack : String → Event
  | stageDep : String → Event
  | installDep : String → Event
  | installTarget : Event
  | loadCheck : String → Event
  | rmTemp : Event
deriving Repr, DecidableEq

/-- True for events that are neither an install nor the module-load
verification. -/
def Event.isPassive : Event → Bool
  | Event.installDep _ => false
  | Event.installTarget => false
  | Event.loadCheck _ => false
  | _ => true

/-- True exactly for dependency-install events. -/
def Event.isDepInstall : Event → Bool
  | Event.installDep _ => true
  | _ => false

/-- Lines 182-198: the dependency packing loop.  For each workspace
dependency, `npm pack` runs in its directory (throwing out of the loop on a
non-zero exit); then the produced tarball is looked up in the directory
listing by transformed name, and — only `if (tarball)` — renamed into the
sandbox.  A dependency whose tarball is not found is skipped silently: no
error is raised and the loop continues. -/
def packDeps (env : Env) : List Package → Bool × List Event
  | [] => (true, [])
  | d :: rest =>
    if env.packOk d.dir then
      let tail := packDeps env rest
      (tail.1,
        Event.pack d.dir
          :: (if env.tarballFound d.dir then [Event.stageDep d.dir] else [])
            ++ tail.2)
    else
      (false, [Event.pack d.dir])

/-- Lines 225-227: the dependency install loop.  Each iteration runs
`npm install ./DEP.tgz` in the sandbox; that file exists there iff the pack
step found the dependency's archive and staged it (the rename guarded by
`if (tarball)` at lines 192-197), so the install can succeed only when the
archive was found, and is otherwise a certain non-zero exit on the
nonexistent file; `execSync` throws out of the loop on the first non-zero
exit. -/
def installDeps (env : Env) : List Package → Bool × List Event
  | [] => (true, [])
  | d :: rest =>
    if env.tarballFound d.dir && env.installDepOk d.dir then
      let tail := installDeps env rest
      (tail.1, Event.installDep d.dir :: tail.2)
    else
      (false, [Event.installDep d.dir])

/-- Lines 181-241: the body of the `try` block of `testPackageImports`,
parameterised by the resolved workspace dependencies.  Every throw inside
the block (a failing `npm pack`, the explicit `throw` when the target
tarball is not found at lines 208-210, a failing `npm install`, or a
non-zero exit of the module-load script) is caught by the `catch` at line
239 and converted to `false`. -/
def testSteps (env : Env) (pkg : Package) (deps : List Package) :
    Bool × List Event :=
  if (packDeps env deps).1 = false then
    (false, (packDeps env deps).2)
  else if env.packOk pkg.dir = false then
    (false, (packDeps env deps).2 ++ [Event.pack pkg.dir])
  else if env.tarballFound pkg.dir = false then
    (false, (packDeps env deps).2 ++ [Event.pack pkg.dir])
  else if (installDeps env deps).1 = false then
    (false, (packDeps env deps).2 ++ [Event.pack pkg.dir]
      ++ (installDeps env deps).2)
  else if env.installTargetOk pkg.dir = false then
    (false, (packDeps env deps).2 ++ [Event.pack pkg.dir]
      ++ (installDeps env deps).2 ++ [Event.installTarget])
  else if moduleLoadExit (env.importLoad pkg.manifest.name) = 0 then
    (true, (packDeps env deps).2 ++ [Event.pack pkg.dir]
      ++ (installDeps env deps).2
      ++ [Event.installTarget, Event.loadCheck pkg.manifest.name])
  else
    (false, (packDeps env deps).2 ++ [Event.pack pkg.dir]
      ++ (installDeps env deps).2
      ++ [Event.installTarget, Event.loadCheck pkg.manifest.name])

/-- Lines 170-245: `testPackageImports`.  A private package returns `true`
immediately without any side effect (lines 174-177).  Otherwise the sandbox
is created (`mkdtempSync`), the try body runs, and — by the `finally` at
lines 242-244 — the sandbox is removed on every exit path, after which the
try body's result (success, or `false` from the `catch`) is returned. -/
def testPackageImports (env : Env) (pkg : Package) : Bool × List Event :=
  if pkg.manifest.privateFlag then (true, [])
  else
    ((testSteps env pkg (getWorkspaceDependencies env pkg.manifest)).1,
      Event.mkTemp
        :: (testSteps env pkg (getWorkspaceDependencies env pkg.manifest)).2
          ++ [Event.rmTemp])

/-- Lines 247-290: `checkPackageExports`.  The per-package loop sets
`allPassed` to `false` when sourcemap validation or the import test fails
(`continue` skips only the rest of that package's checks), so the returned
flag is the conjunction over discovered packages of both checks.  The
publint loop (lines 272-284) then runs for every discovered package; a
non-zero publint exit is caught, reported as a warning, and never touches
`allPassed`.  The second component records which packages publint warned
about. -/
def checkPackageExports (env : Env) : Bool × List String :=
  let packages := getPackagesWithDist env
  (packages.all (fun p => validateSourcemaps p && (testPackageImports env p).1),
    (packages.filter (fun p => !env.publintOk p.dir)).map (fun p => p.dir))

/-- Lines 292-323: `checkBundleSize` prints per-package raw and gzipped
sizes (warning above the threshold) and always returns `true`; the stage is
observational only. -/
def checkBundleSize (_env : Env) : Bool :=
  true

/-- Lines 326-360: `validateModuleIntegrity` greps each package's dist for
`require(`; a grep exit of 0 (a match was found) fails that package, and
the stage passes iff no package had a match. -/
def validateModuleIntegrity (env : Env) : Bool :=
  (getPackagesWithDist env).all (fun p => !env.grepFindsRequire p.dir)

/-- Lines 373-379: the five stage invocations of `main`, in the order the
results array literal evaluates them.  Each entry is the stage name paired
with that stage's own result on the environment; no entry's evaluation is
guarded by any other entry's value. -/
def runStages (env : Env) : List (String × Bool) :=
  [("Syntax compliance", checkSyntaxCompliance env),
    ("Web API baseline", checkBaselineAPIs env),
    ("Package exports", (checkPackageExports env).1),
    ("Bundle size", checkBundleSize env),
    ("Module integrity", validateModuleIntegrity env)]

/-- Observable outcome of a `main` run: the process exit code and the list
of stage results recorded in the summary (empty when the top-level guard
exited before any stage ran). -/
structure RunReport where
  exitCode : Nat
  stageResults : List (String × Bool)
deriving Repr, DecidableEq

/-- Lines 362-395: `main`.  When no package with dist is found it exits 1
before any stage runs (lines 365-369); otherwise it runs the five stages,
aggregates with `results.every(r => r.passed)`, and exits 0 iff every stage
passed. -/
def main (env : Env) : RunReport :=
  if (getPackagesWithDist env).isEmpty then
    { exitCode := 1, stageResults := [] }
  else
    let results := runStages env
    { exitCode := if results.all (fun r => r.2) then 0 else 1,
      stageResults := results }

/-- Scanner for the install-ordering discipline of a trace: dependency
installs may occur only before the target install, and the module-load
verification may occur only after the target install; all other events are
neutral.  The Boolean argument records whether the target install has been
seen. -/
def installOrderOk : Bool → List Event → Bool
  | _, [] => true
  | s, Event.mkTemp :: rest => installOrderOk s rest
  | s, Event.pack _ :: rest => installOrderOk s rest
  | s, Event.stageDep _ :: rest => installOrderOk s rest
  | s, Event.installDep _ :: rest => !s && installOrderOk s rest
  | _, Event.installTarget :: rest => installOrderOk true rest
  | s, Event.loadCheck _ :: rest => s && installOrderOk s rest
  | s, Event.rmTemp :: rest => installOrderOk s rest

/-- An environment in which every external tool succeeds, over the given
package listing; concrete environments for individual theorems adjust one
oracle at a time. -/
def allOkEnv (pkgs : List Package) : Env :=
  { packages := pkgs
    esCheckOk := fun _ => true
    eslintOk := true
    publintOk := fun _ => true
    grepFindsRequire := fun _ => false
    packOk := fun _ => true
    tarballFound := fun _ => true
    installDepOk := fun _ => true
    installTargetOk := fun _ => true
    importLoad := fun _ => some ["trace"] }

/-- A minimal public package with no dependencies and an empty dist file
list, for concrete instantiations. -/
def pkgSolo : Package :=
  { dir := "solo", hasDist := true
    manifest :=
      { name := "solo", dependencies := [], peerDependencies := []
        privateFlag := false }
    distJsFiles := [] }

/-- A private workspace package, for concrete instantiations. -/
def pkgPriv : Package :=
  { dir := "internals", hasDist := true
    manifest :=
      { name := "internals", dependencies := [], peerDependencies := []
        privateFlag := true }
    distJsFiles := [] }

/-- A workspace dependency package with directory `d` and declared name
`dn`, for concrete instantiations. -/
def pkgDepD : Package :=
  { dir := "d", hasDist := true
    manifest :=
      { name := "dn", dependencies := [], peerDependencies := []
        privateFlag := false }
    distJsFiles := [] }

/-- A public target package with directory `t` declaring a dependency on
`dn`, for concrete instantiations. -/
def pkgTargetT : Package :=
  { dir := "t", hasDist := true
    manifest :=
      { name := "tn", dependencies := ["dn"], peerDependencies := []
        privateFlag := false }
    distJsFiles := [] }

/-- An environment in which every external tool succeeds except that the
packed archive of the dependency directory `d` is never found in the
directory listing; the dependency is therefore never staged, so its
install — which `installDeps` computes as archive-found and install-exit-0
— fails by construction, whatever the install oracle says about staged
archives. -/
def envDepArchiveLost : Env :=
  { allOkEnv [pkgDepD, pkgTargetT] with
      tarballFound := fun s => !(s == "d") }

/-- An environment over `pkgSolo` in which the target's packed archive is
never found. -/
def envMissingTargetTar : Env :=
  { allOkEnv [pkgSolo] with tarballFound := fun _ => false }

/-- An environment over `pkgSolo` in which the module load succeeds but
the namespace has no exported bindings. -/
def envNoExports : Env :=
  { allOkEnv [pkgSolo] with importLoad := fun _ => some [] }

/-- An environment over `pkgSolo` in which publint exits non-zero for every
package and every other tool succeeds. -/
def envPublintFail : Env :=
  { allOkEnv [pkgSolo] with publintOk := fun _ => false }

/-- An environment over `pkgSolo` in which es-check exits non-zero for
every package. -/
def envEsCheckFail : Env :=
  { allOkEnv [pkgSolo] with esCheckOk := fun _ => false }

/-- A package whose single compiled file has no companion map and whose
text lacks the sourcemap reference comment. -/
def pkgNoMapNoRef : Package :=
  { dir := "nr", hasDist := true
    manifest :=
      { name := "nr", dependencies := [], peerDependencies := []
        privateFlag := false }
    distJsFiles := [{ fileName := "index.js", mapState := MapFileState.missing
                      hasMapRef := false }] }

/-- A package whose single compiled file has a companion map that fails to
parse. -/
def pkgBadMap : Package :=
  { dir := "bm", hasDist := true
    manifest :=
      { name := "bm", dependencies := [], peerDependencies := []
        privateFlag := false }
    distJsFiles := [{ fileName := "bad.js"
                      mapState := MapFileState.unparsable
                      hasMapRef := true }] }

/-- Helper: with a non-empty discovered-package list, the exit code of
`main` is decided by the aggregate of the five stage results. -/
theorem main_exitCode_eq (env : Env)
    (hne : (getPackagesWithDist env).isEmpty = false) :
    (main env).exitCode =
      if (runStages env).all (fun r => r.2) then 0 else 1 := by
  simp [main, hne]

/-- Helper: the aggregate of the five stage results as a conjunction. -/
theorem runStages_all_iff (env : Env) :
    (runStages env).all (fun r => r.2) = true ↔
      (checkSyntaxCompliance env = true ∧ checkBaselineAPIs env = true ∧
        (checkPackageExports env).1 = true ∧ checkBundleSize env = true ∧
        validateModuleIntegrity env = true) := by
  simp [runStages]

/-- C4: the orchestrator runs all five stages in fixed order whenever any
package with build output was discovered; each recorded result is that
stage's own outcome on the environment, so no stage failure prevents any
other stage from running; the process exits 0 iff every stage passed and 1
otherwise, and it exits 1 with no stage run at all when no built packages
are discovered. -/
theorem C4_orchestrator_aggregate (env : Env) :
    (getPackagesWithDist env = [] →
      main env = { exitCode := 1, stageResults := [] }) ∧
    (getPackagesWithDist env ≠ [] →
      (main env).stageResults =
        [("Syntax compliance", checkSyntaxCompliance env),
          ("Web API baseline", checkBaselineAPIs env),
          ("Package exports", (checkPackageExports env).1),
          ("Bundle size", checkBundleSize env),
          ("Module integrity", validateModuleIntegrity env)] ∧
      ((main env).exitCode = 0 ↔
        (checkSyntaxCompliance env = true ∧ checkBaselineAPIs env = true ∧
          (checkPackageExports env).1 = true ∧ checkBundleSize env = true ∧
          validateModuleIntegrity env = true)) ∧
      ((main env).exitCode = 0 ∨ (main env).exitCode = 1)) := by
  constructor
  · intro h
    simp [main, h]
  · intro h
    have hne : (getPackagesWithDist env).isEmpty = false := by
      simpa [List.isEmpty_iff] using h
    refine ⟨by simp [main, hne, runStages], ?_, ?_⟩
    · rw [main_exitCode_eq env hne, ← runStages_all_iff env]
      cases hall : (runStages env).all (fun r => r.2) with
      | false => simp [hall]
      | true => simp [hall]
    · rw [main_exitCode_eq env hne]
      cases hall : (runStages env).all (fun r => r.2) with
      | false => simp
      | true => simp

/-- C4 witness: on a concrete all-passing environment over one discovered
package, the discovered list is non-empty, all five stages are recorded,
and the run exits 0. -/
theorem C4_orchestrator_aggregate_witness :
    getPackagesWithDist (allOkEnv [pkgSolo]) ≠ [] ∧
      (main (allOkEnv [pkgSolo])).stageResults =
        [("Syntax compliance", true), ("Web API baseline", true),
          ("Package exports", true), ("Bundle size", true),
          ("Module integrity", true)] ∧
      (main (allOkEnv [pkgSolo])).exitCode = 0 := by
  have h := (C4_orchestrator_aggregate (allOkEnv [pkgSolo])).2 (by decide)
  refine ⟨by decide, ?_, ?_⟩
  · rw [h.1]
    decide
  · exact h.2.1.mpr (by decide)

/-- C5: for a package whose manifest marks it private, the export-integrity
test returns success with an empty effect trace — no sandbox creation, no
packing, no staging, and no install. -/
theorem C5_private_package_skip (env : Env) (pkg : Package)
    (h : pkg.manifest.privateFlag = true) :
    testPackageImports env pkg = (true, []) := by
  simp [testPackageImports, h]

/-- C5 witness: the concrete private package is skipped with an empty
trace. -/
theorem C5_private_package_skip_witness :
    pkgPriv.manifest.privateFlag = true ∧
      testPackageImports (allOkEnv [pkgPriv]) pkgPriv = (true, []) :=
  ⟨rfl, C5_private_package_skip (allOkEnv [pkgPriv]) pkgPriv rfl⟩

/-- C6: a package is in the result of the dependency-graph resolver iff it
is a listed workspace package, has build output, and its declared manifest
name is a key of the merged dependency and peer-dependency mapping; hence
an external dependency name (matching no discovered package) and a
workspace package without build output never contribute a result entry. -/
theorem C6_workspace_dependency_graph (env : Env) (m : Manifest)
    (p : Package) :
    p ∈ getWorkspaceDependencies env m ↔
      (p ∈ env.packages ∧ p.hasDist = true ∧
        p.manifest.name ∈ allDepNames m) := by
  constructor
  · intro h
    obtain ⟨hmem, hpred⟩ := List.mem_filter.mp h
    obtain ⟨hpkgs, hdist⟩ := List.mem_filter.mp hmem
    rw [Bool.and_eq_true] at hpred
    exact ⟨hpkgs, by simpa using hdist, List.elem_iff.mp hpred.2⟩
  · rintro ⟨hpkgs, hdist, hname⟩
    have hmem : p ∈ getPackagesWithDist env :=
      List.mem_filter.mpr ⟨hpkgs, by simpa using hdist⟩
    refine List.mem_filter.mpr ⟨hmem, ?_⟩
    rw [Bool.and_eq_true]
    refine ⟨List.elem_iff.mpr ?_, List.elem_iff.mpr hname⟩
    exact List.mem_map.mpr ⟨p, hmem, rfl⟩

/-- C10: with no discovered built packages, the syntax-compliance stage
itself returns success, and the exit status 1 of that run comes from the
top-level guard of `main`, which exits before any stage result is
recorded. -/
theorem C10_empty_discovery_guard (env : Env)
    (h : getPackagesWithDist env = []) :
    checkSyntaxCompliance env = true ∧ (main env).exitCode = 1 ∧
      (main env).stageResults = [] := by
  refine ⟨?_, ?_, ?_⟩ <;> simp [checkSyntaxCompliance, main, h]

/-- C10 witness: a concrete environment with an empty packages listing. -/
theorem C10_empty_discovery_guard_witness :
    getPackagesWithDist (allOkEnv []) = [] ∧
      (checkSyntaxCompliance (allOkEnv []) = true ∧
        (main (allOkEnv [])).exitCode = 1 ∧
        (main (allOkEnv [])).stageResults = []) :=
  ⟨rfl, C10_empty_discovery_guard (allOkEnv []) rfl⟩

/-- C2 counterexample: in an environment where every tool succeeds and the
module load yields a namespace with zero exported bindings, the
verification script still exits 0 (a namespace object is truthy whatever
its exports), and the export-integrity test reports success — refuting the
claim that the verification fails whenever the loaded namespace is
empty. -/
theorem C2_roundtrip_counterexample :
    envNoExports.importLoad pkgSolo.manifest.name = some [] ∧
      moduleLoadExit (envNoExports.importLoad pkgSolo.manifest.name) = 0 ∧
      (testPackageImports envNoExports pkgSolo).1 = true := by
  refine ⟨rfl, rfl, by decide⟩

/-- C2 (amended): the verification script exits 0 iff the module load
itself succeeds, irrespective of how many bindings the namespace exports;
consequently, when packing, archive lookup, and the installs all succeed
and the module load returns a namespace — even one with zero exports — the
export-integrity test reports success. -/
theorem C2_roundtrip_amended :
    (∀ o : Option (List String), moduleLoadExit o = 0 ↔ o.isSome = true) ∧
    (∀ (env : Env) (pkg : Package) (exports : List String),
      pkg.manifest.privateFlag = false →
      (packDeps env (getWorkspaceDependencies env pkg.manifest)).1 = true →
      env.packOk pkg.dir = true →
      env.tarballFound pkg.dir = true →
      (installDeps env (getWorkspaceDependencies env pkg.manifest)).1 = true →
      env.installTargetOk pkg.dir = true →
      env.importLoad pkg.manifest.name = some exports →
      (testPackageImports env pkg).1 = true) := by
  constructor
  · intro o
    cases o <;> simp [moduleLoadExit]
  · intro env pkg exports hpriv hpack hpok htar hinst hit hload
    simp [testPackageImports, hpriv, testSteps, hpack, hpok, htar, hinst,
      hit, hload, moduleLoadExit]

/-- C2 amended witness: the amended round-trip statement instantiated at
the concrete zero-exports environment. -/
theorem C2_roundtrip_amended_witness :
    pkgSolo.manifest.privateFlag = false ∧
      envNoExports.importLoad pkgSolo.manifest.name = some [] ∧
      (testPackageImports envNoExports pkgSolo).1 = true :=
  ⟨rfl, rfl,
    C2_roundtrip_amended.2 envNoExports pkgSolo [] rfl rfl rfl rfl rfl rfl
      rfl⟩

/-- C7 counterexample: in an environment where publint exits non-zero for
the discovered package while every other tool succeeds, the package-exports
stage still returns success, and the publint failure surfaces only in the
warning list — refuting the claim that a non-zero exit of the
package-metadata linter fails its enclosing stage. -/
theorem C7_tool_failure_counterexample :
    envPublintFail.publintOk pkgSolo.dir = false ∧
      (checkPackageExports envPublintFail).1 = true ∧
      (checkPackageExports envPublintFail).2 = ["solo"] := by
  refine ⟨rfl, by decide, by decide⟩

/-- Helper: the dependency resolver reads only the package listing. -/
theorem getWorkspaceDependencies_congr (envA envB : Env)
    (hp : envA.packages = envB.packages) (m : Manifest) :
    getWorkspaceDependencies envA m = getWorkspaceDependencies envB m := by
  simp [getWorkspaceDependencies, getPackagesWithDist, hp]

/-- Helper: the packing loop reads only the pack and archive-lookup
oracles. -/
theorem packDeps_congr (envA envB : Env) (hpk : envA.packOk = envB.packOk)
    (htb : envA.tarballFound = envB.tarballFound) (l : List Package) :
    packDeps envA l = packDeps envB l := by
  induction l with
  | nil => rfl
  | cons d rest ih => simp [packDeps, hpk, htb, ih]

/-- Helper: the dependency-install loop reads only the archive-lookup and
install oracles. -/
theorem installDeps_congr (envA envB : Env)
    (htb : envA.tarballFound = envB.tarballFound)
    (hi : envA.installDepOk = envB.installDepOk) (l : List Package) :
    installDeps envA l = installDeps envB l := by
  induction l with
  | nil => rfl
  | cons d rest ih => simp [installDeps, htb, hi, ih]

/-- Helper: the export-integrity test reads only the package listing and
the pack / archive-lookup / install / load oracles. -/
theorem testPackageImports_congr (envA envB : Env)
    (hp : envA.packages = envB.packages)
    (hpk : envA.packOk = envB.packOk)
    (htb : envA.tarballFound = envB.tarballFound)
    (hid : envA.installDepOk = envB.installDepOk)
    (hit : envA.installTargetOk = envB.installTargetOk)
    (hil : envA.importLoad = envB.importLoad) (pkg : Package) :
    testPackageImports envA pkg = testPackageImports envB pkg := by
  have hdeps := getWorkspaceDependencies_congr envA envB hp pkg.manifest
  have hpd := packDeps_congr envA envB hpk htb
    (getWorkspaceDependencies envB pkg.manifest)
  have hin := installDeps_congr envA envB htb hid
    (getWorkspaceDependencies envB pkg.manifest)
  simp [testPackageImports, testSteps, hdeps, hpd, hin, hpk, htb, hit, hil]

/-- Helper: the pass flag of `checkPackageExports` depends only on the
package listing and the pack / install / load oracles — in particular not
on the publint oracle. -/
theorem checkPackageExports_fst_ignores_publint (env2 env : Env)
    (hp : env2.packages = env.packages) (h1 : env2.packOk = env.packOk)
    (h2 : env2.tarballFound = env.tarballFound)
    (h3 : env2.installDepOk = env.installDepOk)
    (h4 : env2.installTargetOk = env.installTargetOk)
    (h5 : env2.importLoad = env.importLoad) :
    (checkPackageExports env2).1 = (checkPackageExports env).1 := by
  have ht : ∀ p : Package,
      testPackageImports env2 p = testPackageImports env p :=
    fun p => testPackageImports_congr env2 env hp h1 h2 h3 h4 h5 p
  simp [checkPackageExports, getPackagesWithDist, hp, ht]

/-- C7 (amended): a non-zero exit of the syntax checker fails the
syntax-compliance stage, and a non-zero exit of the baseline linter fails
the baseline stage; but a non-zero exit of publint never affects the
package-exports stage result (the result is invariant under the publint
oracle) and is surfaced only as a warning entry. -/
theorem C7_tool_failure_amended :
    (∀ (env : Env) (p : Package), p ∈ getPackagesWithDist env →
      env.esCheckOk p.dir = false → checkSyntaxCompliance env = false) ∧
    (∀ env : Env, checkBaselineAPIs env = env.eslintOk) ∧
    (∀ (env : Env) (f : String → Bool),
      (checkPackageExports { env with publintOk := f }).1 =
        (checkPackageExports env).1) ∧
    (∀ (env : Env) (p : Package), p ∈ getPackagesWithDist env →
      env.publintOk p.dir = false →
      p.dir ∈ (checkPackageExports env).2) := by
  refine ⟨?_, fun _ => rfl,
    fun env f =>
      checkPackageExports_fst_ignores_publint { env with publintOk := f } env
        rfl rfl rfl rfl rfl rfl, ?_⟩
  · intro env p hp hfail
    have hne : (getPackagesWithDist env).isEmpty = false := by
      simp only [List.isEmpty_eq_false]
      exact List.ne_nil_of_mem hp
    simp only [checkSyntaxCompliance, hne, Bool.false_eq_true, if_false]
    cases hall : (getPackagesWithDist env).all (fun q => env.esCheckOk q.dir) with
    | false => rfl
    | true =>
      have hq := List.all_eq_true.mp hall p hp
      rw [hfail] at hq
      exact absurd hq (by decide)
  · intro env p hp hpub
    simp only [checkPackageExports]
    exact List.mem_map.mpr ⟨p, List.mem_filter.mpr ⟨hp, by simp [hpub]⟩, rfl⟩

/-- C7 amended witness: a failing es-check fails its stage on a concrete
environment, and a failing publint lands in the warning list of a run whose
stage still passes. -/
theorem C7_tool_failure_amended_witness :
    envEsCheckFail.esCheckOk pkgSolo.dir = false ∧
      checkSyntaxCompliance envEsCheckFail = false ∧
      envPublintFail.publintOk pkgSolo.dir = false ∧
      pkgSolo.dir ∈ (checkPackageExports envPublintFail).2 :=
  ⟨rfl, C7_tool_failure_amended.1 envEsCheckFail pkgSolo (by decide) rfl,
    rfl,
    C7_tool_failure_amended.2.2.2 envPublintFail pkgSolo (by decide) rfl⟩

/-- C8 counterexample: a package whose only compiled file has no companion
map and whose text lacks the sourcemap reference passes the sourcemap
validator — refuting the claim that every compiled file is required to
contain a sourcemap-reference comment. -/
theorem C8_sourcemap_counterexample :
    validateSourcemaps pkgNoMapNoRef = true ∧
      pkgNoMapNoRef.distJsFiles.all (fun f => f.hasMapRef) = false := by
  decide

/-- C8 (amended): the validator iterates the compiled files in order; a
file without a companion map is skipped entirely — including the
sourcemap-reference check; a map that fails to parse, or parses with an
empty original-sources list, fails the package's stage immediately
regardless of the remaining files; and among the files that do have a
companion map, each must carry the sourcemap-reference comment. -/
theorem C8_sourcemap_amended :
    (∀ fs : List JsFile,
      validateFiles fs = fs.all (fun f =>
        match f.mapState with
        | MapFileState.missing => true
        | MapFileState.unparsable => false
        | MapFileState.ok sources => !sources.isEmpty && f.hasMapRef)) ∧
    (∀ (f : JsFile) (rest : List JsFile),
      f.mapState = MapFileState.unparsable →
      validateFiles (f :: rest) = false) ∧
    (∀ (f : JsFile) (sources : List String) (rest : List JsFile),
      f.mapState = MapFileState.ok sources → sources = [] →
      validateFiles (f :: rest) = false) ∧
    (∀ p : Package, validateSourcemaps p = validateFiles p.distJsFiles) := by
  refine ⟨?_, ?_, ?_, fun _ => rfl⟩
  · intro fs
    induction fs with
    | nil => rfl
    | cons f rest ih =>
      cases h : f.mapState with
      | missing => simp [validateFiles, h, ih]
      | unparsable => simp [validateFiles, h]
      | ok sources =>
        by_cases hs : sources.isEmpty
        · simp [validateFiles, h, hs]
        · by_cases hr : f.hasMapRef
          · simp [validateFiles, h, hs, hr, ih]
          · simp [validateFiles, h, hs, hr]
  · intro f rest h
    simp [validateFiles, h]
  · intro f sources rest h hempty
    simp [validateFiles, h, hempty]

/-- C8 amended witness: the amended statement instantiated at the concrete
package with an unparsable map. -/
theorem C8_sourcemap_amended_witness :
    pkgBadMap.distJsFiles.head?.map (fun f => f.mapState) =
        some MapFileState.unparsable ∧
      validateSourcemaps pkgBadMap = false :=
  ⟨rfl, by
    rw [C8_sourcemap_amended.2.2.2 pkgBadMap]
    exact C8_sourcemap_amended.2.1
      { fileName := "bad.js", mapState := MapFileState.unparsable
        hasMapRef := true } [] rfl⟩

/-- Helper: every event emitted by the packing loop is a pack or a staging
event. -/
theorem packDeps_events (env : Env) (l : List Package) (e : Event)
    (he : e ∈ (packDeps env l).2) :
    (∃ d, e = Event.pack d) ∨ (∃ d, e = Event.stageDep d) := by
  induction l with
  | nil => simp [packDeps] at he
  | cons d rest ih =>
    by_cases h : env.packOk d.dir = true
    · by_cases ht : env.tarballFound d.dir = true
      · simp [packDeps, h, ht] at he
        rcases he with he | he | he
        · exact Or.inl ⟨d.dir, he⟩
        · exact Or.inr ⟨d.dir, he⟩
        · exact ih he
      · simp [packDeps, h, ht] at he
        rcases he with he | he
        · exact Or.inl ⟨d.dir, he⟩
        · exact ih he
    · simp [packDeps, h] at he
      exact Or.inl ⟨d.dir, he⟩

/-- Helper: every event emitted by the install loop is a dependency
install. -/
theorem installDeps_events (env : Env) (l : List Package) (e : Event)
    (he : e ∈ (installDeps env l).2) : ∃ d, e = Event.installDep d := by
  induction l with
  | nil => simp [installDeps] at he
  | cons d rest ih =>
    by_cases h : (env.tarballFound d.dir && env.installDepOk d.dir) = true
    · simp [installDeps, h] at he
      rcases he with he | he
      · exact ⟨d.dir, he⟩
      · exact ih he
    · simp [installDeps, h] at he
      exact ⟨d.dir, he⟩

/-- Helper: pack-loop events are passive for the install-order scanner. -/
theorem packDeps_events_passive (env : Env) (l : List Package) :
    ∀ e ∈ (packDeps env l).2, e.isPassive = true := by
  intro e he
  rcases packDeps_events env l e he with ⟨d, rfl⟩ | ⟨d, rfl⟩ <;> rfl

/-- Helper: install-loop events are dependency installs. -/
theorem installDeps_events_dep (env : Env) (l : List Package) :
    ∀ e ∈ (installDeps env l).2, e.isDepInstall = true := by
  intro e he
  rcases installDeps_events env l e he with ⟨d, rfl⟩
  rfl

/-- Helper: the scanner ignores a passive prefix. -/
theorem installOrderOk_append_passive (s : Bool) :
    ∀ (l r : List Event), (∀ e ∈ l, e.isPassive = true) →
      installOrderOk s (l ++ r) = installOrderOk s r := by
  intro l
  induction l with
  | nil => intro r _; rfl
  | cons e rest ih =>
    intro r h
    have he := h e (List.mem_cons_self e rest)
    have hr : ∀ x ∈ rest, x.isPassive = true :=
      fun x hx => h x (List.mem_cons_of_mem e hx)
    cases e with
    | mkTemp => simpa [installOrderOk] using ih r hr
    | pack d => simpa [installOrderOk] using ih r hr
    | stageDep d => simpa [installOrderOk] using ih r hr
    | rmTemp => simpa [installOrderOk] using ih r hr
    | installDep d => simp [Event.isPassive] at he
    | installTarget => simp [Event.isPassive] at he
    | loadCheck n => simp [Event.isPassive] at he

/-- Helper: before the target install, the scanner accepts any prefix of
dependency installs. -/
theorem installOrderOk_append_depInstalls :
    ∀ (l r : List Event), (∀ e ∈ l, e.isDepInstall = true) →
      installOrderOk false (l ++ r) = installOrderOk false r := by
  intro l
  induction l with
  | nil => intro r _; rfl
  | cons e rest ih =>
    intro r h
    have he := h e (List.mem_cons_self e rest)
    have hr : ∀ x ∈ rest, x.isDepInstall = true :=
      fun x hx => h x (List.mem_cons_of_mem e hx)
    cases e with
    | installDep d => simpa [installOrderOk] using ih r hr
    | mkTemp => simp [Event.isDepInstall] at he
    | pack d => simp [Event.isDepInstall] at he
    | stageDep d => simp [Event.isDepInstall] at he
    | rmTemp => simp [Event.isDepInstall] at he
    | installTarget => simp [Event.isDepInstall] at he
    | loadCheck n => simp [Event.isDepInstall] at he

/-- Helper: on every path, the try-body trace followed by the teardown
event satisfies the install-order discipline. -/
theorem testSteps_install_order (env : Env) (pkg : Package)
    (deps : List Package) :
    installOrderOk false ((testSteps env pkg deps).2 ++ [Event.rmTemp]) =
      true := by
  have hstep : ∀ r, installOrderOk false ((packDeps env deps).2 ++ r) =
      installOrderOk false r :=
    fun r => installOrderOk_append_passive false (packDeps env deps).2 r
      (packDeps_events_passive env deps)
  have histep : ∀ r, installOrderOk false ((installDeps env deps).2 ++ r) =
      installOrderOk false r :=
    fun r => installOrderOk_append_depInstalls (installDeps env deps).2 r
      (installDeps_events_dep env deps)
  unfold testSteps
  by_cases h1 : (packDeps env deps).1 = false
  · rw [if_pos h1]
    show installOrderOk false ((packDeps env deps).2 ++ [Event.rmTemp]) = true
    rw [hstep]
    rfl
  · rw [if_neg h1]
    by_cases h2 : env.packOk pkg.dir = false
    · rw [if_pos h2]
      show installOrderOk false (((packDeps env deps).2
        ++ [Event.pack pkg.dir]) ++ [Event.rmTemp]) = true
      rw [List.append_assoc, hstep]
      rfl
    · rw [if_neg h2]
      by_cases h3 : env.tarballFound pkg.dir = false
      · rw [if_pos h3]
        show installOrderOk false (((packDeps env deps).2
          ++ [Event.pack pkg.dir]) ++ [Event.rmTemp]) = true
        rw [List.append_assoc, hstep]
        rfl
      · rw [if_neg h3]
        by_cases h4 : (installDeps env deps).1 = false
        · rw [if_pos h4]
          show installOrderOk false (((packDeps env deps).2
            ++ [Event.pack pkg.dir] ++ (installDeps env deps).2)
            ++ [Event.rmTemp]) = true
          simp only [List.append_assoc]
          rw [hstep]
          show installOrderOk false
            ((installDeps env deps).2 ++ [Event.rmTemp]) = true
          rw [histep]
          rfl
        · rw [if_neg h4]
          by_cases h5 : env.installTargetOk pkg.dir = false
          · rw [if_pos h5]
            show installOrderOk false (((packDeps env deps).2
              ++ [Event.pack pkg.dir] ++ (installDeps env deps).2
              ++ [Event.installTarget]) ++ [Event.rmTemp]) = true
            simp only [List.append_assoc]
            rw [hstep]
            show installOrderOk false ((installDeps env deps).2
              ++ ([Event.installTarget] ++ [Event.rmTemp])) = true
            rw [histep]
            rfl
          · rw [if_neg h5]
            by_cases h6 :
                moduleLoadExit (env.importLoad pkg.manifest.name) = 0
            · rw [if_pos h6]
              show installOrderOk false (((packDeps env deps).2
                ++ [Event.pack pkg.dir] ++ (installDeps env deps).2
                ++ [Event.installTarget,
                  Event.loadCheck pkg.manifest.name])
                ++ [Event.rmTemp]) = true
              simp only [List.append_assoc]
              rw [hstep]
              show installOrderOk false ((installDeps env deps).2
                ++ ([Event.installTarget,
                  Event.loadCheck pkg.manifest.name] ++ [Event.rmTemp])) =
                true
              rw [histep]
              rfl
            · rw [if_neg h6]
              show installOrderOk false (((packDeps env deps).2
                ++ [Event.pack pkg.dir] ++ (installDeps env deps).2
                ++ [Event.installTarget,
                  Event.loadCheck pkg.manifest.name])
                ++ [Event.rmTemp]) = true
              simp only [List.append_assoc]
              rw [hstep]
              show installOrderOk false ((installDeps env deps).2
                ++ ([Event.installTarget,
                  Event.loadCheck pkg.manifest.name] ++ [Event.rmTemp])) =
                true
              rw [histep]
              rfl

/-- C9: within one export-integrity invocation, every workspace-dependency
install event precedes the target-install event, and the module-load
verification event occurs only after the target install; the scanner
accepts the full trace of every invocation, whatever the environment. -/
theorem C9_install_ordering (env : Env) (pkg : Package) :
    installOrderOk false (testPackageImports env pkg).2 = true := by
  unfold testPackageImports
  by_cases h : pkg.manifest.privateFlag = true
  · rw [if_pos h]
    rfl
  · rw [if_neg h]
    show installOrderOk false
      ((testSteps env pkg (getWorkspaceDependencies env pkg.manifest)).2
        ++ [Event.rmTemp]) = true
    exact testSteps_install_order env pkg _

/-- Helper: the set of events a try-body trace can contain. -/
theorem testSteps_events_subset (env : Env) (pkg : Package)
    (deps : List Package) :
    ∀ e ∈ (testSteps env pkg deps).2,
      e ∈ (packDeps env deps).2 ∨ e = Event.pack pkg.dir ∨
        e ∈ (installDeps env deps).2 ∨ e = Event.installTarget ∨
        e = Event.loadCheck pkg.manifest.name := by
  intro e he
  unfold testSteps at he
  by_cases h1 : (packDeps env deps).1 = false
  · rw [if_pos h1] at he
    exact Or.inl he
  · rw [if_neg h1] at he
    by_cases h2 : env.packOk pkg.dir = false
    · rw [if_pos h2] at he
      rcases List.mem_append.mp he with h | h
      · exact Or.inl h
      · exact Or.inr (Or.inl (List.mem_singleton.mp h))
    · rw [if_neg h2] at he
      by_cases h3 : env.tarballFound pkg.dir = false
      · rw [if_pos h3] at he
        rcases List.mem_append.mp he with h | h
        · exact Or.inl h
        · exact Or.inr (Or.inl (List.mem_singleton.mp h))
      · rw [if_neg h3] at he
        by_cases h4 : (installDeps env deps).1 = false
        · rw [if_pos h4] at he
          rcases List.mem_append.mp he with h | h
          · rcases List.mem_append.mp h with h | h
            · exact Or.inl h
            · exact Or.inr (Or.inl (List.mem_singleton.mp h))
          · exact Or.inr (Or.inr (Or.inl h))
        · rw [if_neg h4] at he
          by_cases h5 : env.installTargetOk pkg.dir = false
          · rw [if_pos h5] at he
            rcases List.mem_append.mp he with h | h
            · rcases List.mem_append.mp h with h | h
              · rcases List.mem_append.mp h with h | h
                · exact Or.inl h
                · exact Or.inr (Or.inl (List.mem_singleton.mp h))
              · exact Or.inr (Or.inr (Or.inl h))
            · exact Or.inr (Or.inr (Or.inr (Or.inl
                (List.mem_singleton.mp h))))
          · rw [if_neg h5] at he
            by_cases h6 :
                moduleLoadExit (env.importLoad pkg.manifest.name) = 0
            · rw [if_pos h6] at he
              rcases List.mem_append.mp he with h | h
              · rcases List.mem_append.mp h with h | h
                · rcases List.mem_append.mp h with h | h
                  · exact Or.inl h
                  · exact Or.inr (Or.inl (List.mem_singleton.mp h))
                · exact Or.inr (Or.inr (Or.inl h))
              · rcases List.mem_cons.mp h with h | h
                · exact Or.inr (Or.inr (Or.inr (Or.inl h)))
                · exact Or.inr (Or.inr (Or.inr (Or.inr
                    (List.mem_singleton.mp h))))
            · rw [if_neg h6] at he
              rcases List.mem_append.mp he with h | h
              · rcases List.mem_append.mp h with h | h
                · rcases List.mem_append.mp h with h | h
                  · exact Or.inl h
                  · exact Or.inr (Or.inl (List.mem_singleton.mp h))
                · exact Or.inr (Or.inr (Or.inl h))
              · rcases List.mem_cons.mp h with h | h
                · exact Or.inr (Or.inr (Or.inr (Or.inl h)))
                · exact Or.inr (Or.inr (Or.inr (Or.inr
                    (List.mem_singleton.mp h))))

/-- Helper: the try-body trace never contains the teardown event. -/
theorem testSteps_no_rmTemp (env : Env) (pkg : Package)
    (deps : List Package) :
    Event.rmTemp ∉ (testSteps env pkg deps).2 := by
  intro hmem
  rcases testSteps_events_subset env pkg deps Event.rmTemp hmem with
    h | h | h | h | h
  · rcases packDeps_events env deps _ h with ⟨d, hd⟩ | ⟨d, hd⟩ <;> cases hd
  · cases h
  · rcases installDeps_events env deps _ h with ⟨d, hd⟩
    cases hd
  · cases h
  · cases h

/-- C1: for a non-private package, every invocation of the export-integrity
test removes the sandbox exactly once, as the final event of its trace, on
every success and failure path of the state machine. -/
theorem C1_teardown_exactly_once (env : Env) (pkg : Package)
    (h : pkg.manifest.privateFlag = false) :
    (testPackageImports env pkg).2.count Event.rmTemp = 1 ∧
      (testPackageImports env pkg).2.getLast? = some Event.rmTemp := by
  have hno := testSteps_no_rmTemp env pkg
    (getWorkspaceDependencies env pkg.manifest)
  unfold testPackageImports
  rw [if_neg (by simp [h])]
  constructor
  · show (Event.mkTemp ::
      ((testSteps env pkg (getWorkspaceDependencies env pkg.manifest)).2
        ++ [Event.rmTemp])).count Event.rmTemp = 1
    rw [List.count_cons_of_ne (by simp), List.count_append,
      List.count_eq_zero.mpr hno]
    rfl
  · show (Event.mkTemp ::
      ((testSteps env pkg (getWorkspaceDependencies env pkg.manifest)).2
        ++ [Event.rmTemp])).getLast? = some Event.rmTemp
    rw [← List.cons_append, List.getLast?_concat]

/-- C1 witness: the teardown property instantiated on a concrete
all-passing environment over one non-private package. -/
theorem C1_teardown_exactly_once_witness :
    pkgSolo.manifest.privateFlag = false ∧
      ((testPackageImports (allOkEnv [pkgSolo]) pkgSolo).2.count
          Event.rmTemp = 1 ∧
        (testPackageImports (allOkEnv [pkgSolo]) pkgSolo).2.getLast? =
          some Event.rmTemp) :=
  ⟨rfl, C1_teardown_exactly_once (allOkEnv [pkgSolo]) pkgSolo rfl⟩

/-- Helper: the dependency-install loop fails whenever some listed
dependency's archive was never found — its tarball was never staged into
the sandbox, so `npm install ./DEP.tgz` cannot succeed. -/
theorem installDeps_fails_of_missing (env : Env) :
    ∀ (l : List Package) (d : Package), d ∈ l →
      env.tarballFound d.dir = false → (installDeps env l).1 = false := by
  intro l
  induction l with
  | nil =>
    intro d hd _
    simp at hd
  | cons a rest ih =>
    intro d hd ht
    by_cases h : (env.tarballFound a.dir && env.installDepOk a.dir) = true
    · rcases List.mem_cons.mp hd with rfl | hd2
      · rw [Bool.and_eq_true] at h
        rw [ht] at h
        exact absurd h.1 (by decide)
      · simp [installDeps, h]
        exact ih d hd2 ht
    · simp [installDeps, h]

/-- C3: during the export-integrity test of a non-private package, a packed
package — an internal dependency or the target — whose produced archive is
not found among the directory listing is fatal to that package's
export-integrity stage: for the target the explicit throw at lines 208-210
fails the stage, and for a dependency the never-staged tarball makes its
`npm install` at line 226 fail, so the stage returns failure on every such
path; no packed package's missing archive lets the stage succeed. -/
theorem C3_missing_archive_fatal :
    (∀ (env : Env) (pkg d : Package),
      pkg.manifest.privateFlag = false →
      d ∈ getWorkspaceDependencies env pkg.manifest →
      env.tarballFound d.dir = false →
      (testPackageImports env pkg).1 = false) ∧
    (∀ (env : Env) (pkg : Package),
      pkg.manifest.privateFlag = false →
      env.tarballFound pkg.dir = false →
      (testPackageImports env pkg).1 = false) := by
  constructor
  · intro env pkg d hpriv hd ht
    have hfail := installDeps_fails_of_missing env
      (getWorkspaceDependencies env pkg.manifest) d hd ht
    unfold testPackageImports
    rw [if_neg (by simp [hpriv])]
    show (testSteps env pkg
      (getWorkspaceDependencies env pkg.manifest)).1 = false
    unfold testSteps
    by_cases h1 :
        (packDeps env (getWorkspaceDependencies env pkg.manifest)).1 = false
    · rw [if_pos h1]
    · rw [if_neg h1]
      by_cases h2 : env.packOk pkg.dir = false
      · rw [if_pos h2]
      · rw [if_neg h2]
        by_cases h3 : env.tarballFound pkg.dir = false
        · rw [if_pos h3]
        · rw [if_neg h3]
          rw [if_pos hfail]
  · intro env pkg hpriv ht
    unfold testPackageImports
    rw [if_neg (by simp [hpriv])]
    show (testSteps env pkg
      (getWorkspaceDependencies env pkg.manifest)).1 = false
    unfold testSteps
    by_cases h1 :
        (packDeps env (getWorkspaceDependencies env pkg.manifest)).1 = false
    · rw [if_pos h1]
    · rw [if_neg h1]
      by_cases h2 : env.packOk pkg.dir = false
      · rw [if_pos h2]
      · rw [if_neg h2]
        rw [if_pos ht]

/-- C3 witness: on a concrete environment where the dependency's archive is
never found (and independently where the target's archive is never found),
the export-integrity stage returns failure. -/
theorem C3_missing_archive_fatal_witness :
    envDepArchiveLost.tarballFound pkgDepD.dir = false ∧
      pkgDepD ∈
        getWorkspaceDependencies envDepArchiveLost pkgTargetT.manifest ∧
      (testPackageImports envDepArchiveLost pkgTargetT).1 = false ∧
      (testPackageImports envMissingTargetTar pkgSolo).1 = false :=
  ⟨rfl, by decide,
    C3_missing_archive_fatal.1 envDepArchiveLost pkgTargetT pkgDepD rfl
      (by decide) rfl,
    C3_missing_archive_fatal.2 envMissingTargetTar pkgSolo rfl rfl⟩

end BuildValidate
